import Mathlib

/-!
Verification of the movie_recommender_system backend against its
specification.

The store is modelled as a list of rows of the single `movies` table
(`src/backend/app/database/models.py`); the query service
(`src/backend/app/services/movie_service.py`) is embedded as pure
functions over that list; the FastAPI routers
(`src/backend/app/routers/movies.py`) are embedded as functions
producing an `ApiResult`, with the exception handlers of
`src/backend/app/main.py` rendering results to a status code plus a
JSON body.  SQL semantics of the filters follow SQLite: a comparison
with a NULL column is not satisfied, `=` on strings is case-sensitive,
and `lower(x) LIKE lower(y)` (SQLAlchemy's `ilike` on SQLite) is
ASCII-case-insensitive pattern matching where `%` matches any sequence
of characters and `_` matches exactly one character.  `Float` ratings
are modelled as rationals: the only operation performed on them is the
order comparison `>=`.
-/

namespace MovieRec

/-- A row of the `movies` table (`database/models.py`): `id` is the
integer primary key; `title` is non-nullable; all other columns are
nullable. -/
structure MovieRow where
  id : Int
  title : String
  year : Option Int
  genre : Option String
  rating : Option Rat
  director : Option String
  cast : Option String
  plot : Option String
deriving DecidableEq, Repr

/-- The contents of the `movies` table. -/
abbrev Store := List MovieRow

/-! ## Query service (`services/movie_service.py`) -/

/-- `MovieService.get_all_movies`: `session.query(Movie).all()`. -/
def get_all_movies (store : Store) : List MovieRow :=
  store

/-- `MovieService.get_movie_by_id`:
`session.query(Movie).filter(Movie.id == movie_id).first()`. -/
def get_movie_by_id (store : Store) (movie_id : Int) : Option MovieRow :=
  store.find? (fun m => m.id == movie_id)

/-- The SQL filter `Movie.genre == genre`: NULL never compares equal,
string equality is exact and case-sensitive. -/
def moviesWithGenre (store : Store) (genre : String) : List MovieRow :=
  store.filter (fun m => m.genre == some genre)

/-- `MovieService.get_random_movies_by_genre`.  The call to the library
function `random.sample` is a parameter `sample`; the contract of
`random.sample(population, k)` for `k ≤ len(population)` (it returns a
new list of `k` elements chosen from distinct positions of the
population, in random order) is the hypothesis `SampleSpec` of the
theorems below. -/
def get_random_movies_by_genre (sample : List MovieRow → Nat → List MovieRow)
    (store : Store) (genre : String) (limit : Nat) : List MovieRow :=
  let movies := moviesWithGenre store genre
  if movies.isEmpty then []
  else if movies.length ≤ limit then movies
  else sample movies limit

/-- The documented behaviour of `random.sample population k` when
`k ≤ len(population)`: the result has length `k` and is a permutation
of a sublist of the population (elements drawn from `k` distinct
positions, returned in selection order). -/
def SampleSpec (sample : List MovieRow → Nat → List MovieRow) : Prop :=
  ∀ (l : List MovieRow) (k : Nat), k ≤ l.length →
    (sample l k).length = k ∧ ∃ sub : List MovieRow, sub.Sublist l ∧ (sample l k).Perm sub

/-- A deterministic instance of `random.sample`'s contract, used to
instantiate the sampling theorems on concrete stores. -/
def takeSample (l : List MovieRow) (k : Nat) : List MovieRow :=
  l.take k

/-- `MovieService.get_all_genres`:
`session.query(Movie.genre).distinct().all()` followed by the
comprehension `[g[0] for g in genres if g[0]]`, which keeps the truthy
values (non-NULL, non-empty strings). -/
def get_all_genres (store : Store) : List String :=
  ((store.map (fun m => m.genre)).dedup).filterMap
    (fun g =>
      match g with
      | some s => if s = "" then none else some s
      | none => none)

/-- `MovieService.get_movies_by_year_range`: the SQL filter
`Movie.year >= start, Movie.year <= end`; rows with NULL `year` satisfy
neither comparison. -/
def get_movies_by_year_range (store : Store) (start_year end_year : Int) :
    List MovieRow :=
  store.filter (fun m =>
    match m.year with
    | some y => decide (start_year ≤ y) && decide (y ≤ end_year)
    | none => false)

/-- `MovieService.get_movies_by_rating_threshold`: the SQL filter
`Movie.rating >= min_rating`; rows with NULL `rating` do not satisfy
it. -/
def get_movies_by_rating_threshold (store : Store) (min_rating : Rat) :
    List MovieRow :=
  store.filter (fun m =>
    match m.rating with
    | some r => decide (min_rating ≤ r)
    | none => false)

/-- SQLite `LIKE` under `lower`/`lower` (what SQLAlchemy's `ilike`
compiles to on SQLite): `%` matches any sequence of characters, `_`
matches exactly one character, any other pattern character matches a
string character with the same ASCII lowercasing.  No ESCAPE clause is
supplied in the source, so `%` and `_` are always wildcards. -/
def likeMatch : List Char → List Char → Bool
  | [], s => s.isEmpty
  | p :: ps, s =>
    if p = '%' then
      s.tails.any (fun t => likeMatch ps t)
    else
      match s with
      | [] => false
      | c :: cs =>
          (if p = '_' then true else p.toLower == c.toLower) && likeMatch ps cs

/-- `MovieService.search_movies_by_title`:
`Movie.title.ilike(f"%{search_term}%")`. -/
def search_movies_by_title (store : Store) (search_term : String) :
    List MovieRow :=
  store.filter (fun m =>
    likeMatch ('%' :: search_term.toList ++ ['%']) m.title.toList)

/-- The spec's reading of title search: `needle` occurs in `haystack`
as an (ASCII-)case-insensitive substring. -/
def containsCI (haystack needle : String) : Prop :=
  (needle.toList.map Char.toLower) <:+: (haystack.toList.map Char.toLower)

instance (haystack needle : String) : Decidable (containsCI haystack needle) :=
  List.decidableInfix _ _

/-! ## API layer (`routers/movies.py`, `main.py`) -/

/-- Outcome of a request handler: a successful payload, a raised
`HTTPException(status_code, detail)` (handled by the custom
`http_exception_handler` of `main.py`), or a FastAPI request-validation
failure (always status 422, handled by the framework's default
handler). -/
inductive ApiResult (α : Type) where
  | ok : α → ApiResult α
  | httpError : Nat → String → ApiResult α
  | validationError : String → ApiResult α
deriving Repr

/-- The HTTP status line of the response produced for a handler
outcome. -/
def ApiResult.statusCode {α : Type} : ApiResult α → Nat
  | .ok _ => 200
  | .httpError s _ => s
  | .validationError _ => 422

/-- `GET /movies/`: `MovieListResponse(movies=movies, total=len(movies))`. -/
def get_all_movies_endpoint (store : Store) : ApiResult (List MovieRow) :=
  .ok (get_all_movies store)

/-- `GET /movies/{movie_id}`: 404 when the service returns `None`
(`if not movie`), the movie otherwise. -/
def get_movie_by_id_endpoint (store : Store) (movie_id : Int) :
    ApiResult MovieRow :=
  match get_movie_by_id store movie_id with
  | none => .httpError 404 ("Movie with ID " ++ toString movie_id ++ " not found")
  | some m => .ok m

/-- `GET /movies/genre/{genre}?limit=N`: `limit` is declared
`Query(default=8, ge=1, le=20)`, so a missing value defaults to 8 and a
value outside `[1, 20]` is rejected by FastAPI validation (422) before
the handler body runs; then 404 when the service result is empty
(`if not movies`), otherwise the list with its count. -/
def get_movies_by_genre_endpoint (sample : List MovieRow → Nat → List MovieRow)
    (store : Store) (genre : String) (limit? : Option Int) :
    ApiResult (List MovieRow) :=
  let limit := limit?.getD 8
  if limit < 1 || 20 < limit then
    .validationError "limit must be in the range 1 to 20"
  else
    let movies := get_random_movies_by_genre sample store genre limit.toNat
    if movies.isEmpty then
      .httpError 404 ("No movies found for genre " ++ genre)
    else
      .ok movies

/-- `GET /movies/year/{start_year}/{end_year}`: the handler raises
`HTTPException(422)` when `start_year > end_year`, otherwise returns
the service result (possibly empty) with its count. -/
def get_movies_by_year_range_endpoint (store : Store)
    (start_year end_year : Int) : ApiResult (List MovieRow) :=
  if start_year > end_year then
    .httpError 422 "Start year must be less than or equal to end year"
  else
    .ok (get_movies_by_year_range store start_year end_year)

/-! ## JSON response bodies -/

mutual
/-- JSON values; numbers are modelled as rationals.  Arrays and objects
carry their own list types so that all recursion over documents is
structural. -/
inductive Json where
  | null : Json
  | bool : Bool → Json
  | num : Rat → Json
  | str : String → Json
  | arr : JsonItems → Json
  | obj : JsonFields → Json

/-- The element list of a JSON array. -/
inductive JsonItems where
  | nil : JsonItems
  | cons : Json → JsonItems → JsonItems

/-- The field list of a JSON object. -/
inductive JsonFields where
  | nil : JsonFields
  | cons : String → Json → JsonFields → JsonFields
end

/-- Build a JSON array element list from a `List`. -/
def JsonItems.ofList : List Json → JsonItems
  | [] => .nil
  | j :: js => .cons j (JsonItems.ofList js)

mutual
/-- Does the value `t` occur as a numeric leaf anywhere in the JSON
document?  This is what "carries the status code numerically inside the
JSON body" means. -/
def Json.hasNumber (t : Rat) : Json → Bool
  | .num q => decide (q = t)
  | .arr items => JsonItems.hasNumber t items
  | .obj fields => JsonFields.hasNumber t fields
  | .null => false
  | .bool _ => false
  | .str _ => false

/-- `Json.hasNumber` over the elements of an array. -/
def JsonItems.hasNumber (t : Rat) : JsonItems → Bool
  | .nil => false
  | .cons j rest => Json.hasNumber t j || JsonItems.hasNumber t rest

/-- `Json.hasNumber` over the values of an object. -/
def JsonFields.hasNumber (t : Rat) : JsonFields → Bool
  | .nil => false
  | .cons _ j rest => Json.hasNumber t j || JsonFields.hasNumber t rest
end

/-- Encode an optional column value, `null` when absent. -/
def encodeOpt {α : Type} (f : α → Json) : Option α → Json
  | none => Json.null
  | some a => f a

/-- The JSON body of the `Movie` Pydantic response model
(`models/movie.py`). -/
def encodeMovie (m : MovieRow) : Json :=
  .obj
    (.cons "id" (.num (m.id : Rat))
      (.cons "title" (.str m.title)
        (.cons "year" (encodeOpt (fun y => Json.num (y : Rat)) m.year)
          (.cons "genre" (encodeOpt Json.str m.genre)
            (.cons "rating" (encodeOpt Json.num m.rating)
              (.cons "director" (encodeOpt Json.str m.director)
                (.cons "cast" (encodeOpt Json.str m.cast)
                  (.cons "plot" (encodeOpt Json.str m.plot) .nil))))))))

/-- The JSON body of `MovieListResponse(movies=movies,
total=len(movies))`: every list route computes `total` as the length of
the returned list. -/
def encodeMovieListBody (movies : List MovieRow) : Json :=
  .obj
    (.cons "movies" (.arr (JsonItems.ofList (movies.map encodeMovie)))
      (.cons "total" (.num (movies.length : Rat)) .nil))

/-- The body produced by `http_exception_handler` in `main.py`:
`{"error": exc.detail, "status_code": exc.status_code}`. -/
def errorBody (status : Nat) (detail : String) : Json :=
  .obj (.cons "error" (.str detail) (.cons "status_code" (.num (status : Rat)) .nil))

/-- The body of FastAPI's default `RequestValidationError` response:
`{"detail": [{"loc": ..., "msg": ..., "type": ...}]}`. -/
def validationBody (msg : String) : Json :=
  .obj (.cons "detail" (.arr (.cons (.obj (.cons "msg" (.str msg) .nil)) .nil)) .nil)

/-- The HTTP response (status line, JSON body) for a handler outcome:
success is serialized by the route's response model, a raised
`HTTPException` goes through `http_exception_handler`, a validation
failure through the framework's default 422 handler. -/
def renderResponse {α : Type} (encode : α → Json) :
    ApiResult α → Nat × Json
  | .ok a => (200, encode a)
  | .httpError s d => (s, errorBody s d)
  | .validationError m => (422, validationBody m)

/-- Rendering of list-endpoint outcomes. -/
def renderListResponse : ApiResult (List MovieRow) → Nat × Json :=
  renderResponse encodeMovieListBody

/-- Rendering of the single-movie endpoint outcome. -/
def renderMovieResponse : ApiResult MovieRow → Nat × Json :=
  renderResponse encodeMovie

/-- The response of `GET /health` in `main.py`:
`{"status": "healthy", "service": "movie-recommendation-api"}`. -/
def health_response : Nat × Json :=
  (200,
    .obj (.cons "status" (.str "healthy")
      (.cons "service" (.str "movie-recommendation-api") .nil)))

/-! ## Seeding (`utils/data_seeder.py`) -/

/-- The column values of one entry of `SAMPLE_MOVIES`: a `Movie` ORM
object before the store has assigned its `id`.  Every sample entry
supplies all seven columns; the `cast` strings are the `json.dumps`
renderings of the cast lists. -/
structure MovieData where
  title : String
  year : Option Int
  genre : Option String
  rating : Option Rat
  director : Option String
  cast : Option String
  plot : Option String
deriving DecidableEq, Repr

def SAMPLE_MOVIES : List MovieData :=
  [
   { title := "The Dark Knight",
     year := some 2008,
     genre := some "Action",
     rating := some 9.0,
     director := some "Christopher Nolan",
     cast := some "[\"Christian Bale\", \"Heath Ledger\", \"Aaron Eckhart\"]",
     plot := some "When the menace known as the Joker wreaks havoc and chaos on the people of Gotham, Batman must accept one of the greatest psychological and physical tests of his ability to fight injustice." },
   { title := "Mad Max: Fury Road",
     year := some 2015,
     genre := some "Action",
     rating := some 8.1,
     director := some "George Miller",
     cast := some "[\"Tom Hardy\", \"Charlize Theron\", \"Nicholas Hoult\"]",
     plot := some "In a post-apocalyptic wasteland, a woman rebels against a tyrannical ruler in search for her homeland with the aid of a group of female prisoners, a psychotic worshiper, and a drifter named Max." },
   { title := "John Wick",
     year := some 2014,
     genre := some "Action",
     rating := some 7.4,
     director := some "Chad Stahelski",
     cast := some "[\"Keanu Reeves\", \"Michael Nyqvist\", \"Alfie Allen\"]",
     plot := some "An ex-hitman comes out of retirement to track down the gangsters who killed his dog and stole his car." },
   { title := "Mission: Impossible - Fallout",
     year := some 2018,
     genre := some "Action",
     rating := some 7.7,
     director := some "Christopher McQuarrie",
     cast := some "[\"Tom Cruise\", \"Henry Cavill\", \"Ving Rhames\"]",
     plot := some "Ethan Hunt and his IMF team, along with some familiar allies, race against time after a mission goes wrong." },
   { title := "The Grand Budapest Hotel",
     year := some 2014,
     genre := some "Comedy",
     rating := some 8.1,
     director := some "Wes Anderson",
     cast := some "[\"Ralph Fiennes\", \"Tony Revolori\", \"F. Murray Abraham\"]",
     plot := some "A writer encounters the owner of an aging high-class hotel, who tells him of his early years serving as a lobby boy in the hotel\u0027s glorious years under an exceptional concierge." },
   { title := "Superbad",
     year := some 2007,
     genre := some "Comedy",
     rating := some 7.6,
     director := some "Greg Mottola",
     cast := some "[\"Jonah Hill\", \"Michael Cera\", \"Christopher Mintz-Plasse\"]",
     plot := some "Two co-dependent high school seniors are forced to deal with separation anxiety after their plan to stage a booze-soaked party goes awry." },
   { title := "Bridesmaids",
     year := some 2011,
     genre := some "Comedy",
     rating := some 6.8,
     director := some "Paul Feig",
     cast := some "[\"Kristen Wiig\", \"Maya Rudolph\", \"Rose Byrne\"]",
     plot := some "Competition between the maid of honor and a bridesmaid, over who is the bride\u0027s best friend, threatens to upend the life of an out-of-work pastry chef." },
   { title := "The Hangover",
     year := some 2009,
     genre := some "Comedy",
     rating := some 7.7,
     director := some "Todd Phillips",
     cast := some "[\"Bradley Cooper\", \"Ed Helms\", \"Zach Galifianakis\"]",
     plot := some "Three buddies wake up from a bachelor party in Las Vegas, with no memory of the previous night and the bachelor missing. They make their way around the city in order to find their friend before his wedding." },
   { title := "The Shawshank Redemption",
     year := some 1994,
     genre := some "Drama",
     rating := some 9.3,
     director := some "Frank Darabont",
     cast := some "[\"Tim Robbins\", \"Morgan Freeman\", \"Bob Gunton\"]",
     plot := some "Two imprisoned men bond over a number of years, finding solace and eventual redemption through acts of common decency." },
   { title := "Forrest Gump",
     year := some 1994,
     genre := some "Drama",
     rating := some 8.8,
     director := some "Robert Zemeckis",
     cast := some "[\"Tom Hanks\", \"Robin Wright\", \"Gary Sinise\"]",
     plot := some "The presidencies of Kennedy and Johnson, the Vietnam War, the Watergate scandal and other historical events unfold from the perspective of an Alabama man with an IQ of 75." },
   { title := "The Green Mile",
     year := some 1999,
     genre := some "Drama",
     rating := some 8.6,
     director := some "Frank Darabont",
     cast := some "[\"Tom Hanks\", \"Michael Clarke Duncan\", \"David Morse\"]",
     plot := some "The lives of guards on Death Row are affected by one of their charges: a black man accused of child murder and rape, yet who has a mysterious gift." },
   { title := "Schindler\u0027s List",
     year := some 1993,
     genre := some "Drama",
     rating := some 8.9,
     director := some "Steven Spielberg",
     cast := some "[\"Liam Neeson\", \"Ralph Fiennes\", \"Ben Kingsley\"]",
     plot := some "In German-occupied Poland during World War II, industrialist Oskar Schindler gradually becomes concerned for his Jewish workforce after witnessing their persecution by the Nazis." },
   { title := "The Shining",
     year := some 1980,
     genre := some "Horror",
     rating := some 8.4,
     director := some "Stanley Kubrick",
     cast := some "[\"Jack Nicholson\", \"Shelley Duvall\", \"Danny Lloyd\"]",
     plot := some "A family heads to an isolated hotel for the winter where a sinister presence influences the father into violence, while his psychic son sees horrific forebodings from both past and future." },
   { title := "A Quiet Place",
     year := some 2018,
     genre := some "Horror",
     rating := some 7.5,
     director := some "John Krasinski",
     cast := some "[\"Emily Blunt\", \"John Krasinski\", \"Millicent Simmonds\"]",
     plot := some "In a post-apocalyptic world, a family is forced to live in silence while hiding from monsters with ultra-sensitive hearing." },
   { title := "Get Out",
     year := some 2017,
     genre := some "Horror",
     rating := some 7.7,
     director := some "Jordan Peele",
     cast := some "[\"Daniel Kaluuya\", \"Allison Williams\", \"Bradley Whitford\"]",
     plot := some "A young African-American visits his white girlfriend\u0027s parents for the weekend, where his simmering uneasiness about their reception of him eventually reaches a boiling point." },
   { title := "Hereditary",
     year := some 2018,
     genre := some "Horror",
     rating := some 7.3,
     director := some "Ari Aster",
     cast := some "[\"Toni Collette\", \"Milly Shapiro\", \"Gabriel Byrne\"]",
     plot := some "A grieving family is haunted by tragic and disturbing occurrences." },
   { title := "Inception",
     year := some 2010,
     genre := some "Sci-Fi",
     rating := some 8.8,
     director := some "Christopher Nolan",
     cast := some "[\"Leonardo DiCaprio\", \"Joseph Gordon-Levitt\", \"Ellen Page\"]",
     plot := some "A thief who steals corporate secrets through the use of dream-sharing technology is given the inverse task of planting an idea into the mind of a C.E.O." },
   { title := "Interstellar",
     year := some 2014,
     genre := some "Sci-Fi",
     rating := some 8.6,
     director := some "Christopher Nolan",
     cast := some "[\"Matthew McConaughey\", \"Anne Hathaway\", \"Jessica Chastain\"]",
     plot := some "A team of explorers travel through a wormhole in space in an attempt to ensure humanity\u0027s survival." },
   { title := "Blade Runner 2049",
     year := some 2017,
     genre := some "Sci-Fi",
     rating := some 8.0,
     director := some "Denis Villeneuve",
     cast := some "[\"Ryan Gosling\", \"Harrison Ford\", \"Ana de Armas\"]",
     plot := some "A young blade runner\u0027s discovery of a long-buried secret leads him to track down former blade runner Rick Deckard, who\u0027s been missing for thirty years." },
   { title := "Arrival",
     year := some 2016,
     genre := some "Sci-Fi",
     rating := some 7.9,
     director := some "Denis Villeneuve",
     cast := some "[\"Amy Adams\", \"Jeremy Renner\", \"Forest Whitaker\"]",
     plot := some "A linguist works with the military to communicate with alien lifeforms after twelve mysterious spacecraft appear around the world." },
   { title := "Gone Girl",
     year := some 2014,
     genre := some "Thriller",
     rating := some 8.1,
     director := some "David Fincher",
     cast := some "[\"Ben Affleck\", \"Rosamund Pike\", \"Neil Patrick Harris\"]",
     plot := some "With his wife\u0027s disappearance having become the focus of an intense media circus, a man sees the spotlight turned on him when it\u0027s suspected that he may not be innocent." },
   { title := "The Silence of the Lambs",
     year := some 1991,
     genre := some "Thriller",
     rating := some 8.6,
     director := some "Jonathan Demme",
     cast := some "[\"Jodie Foster\", \"Anthony Hopkins\", \"Lawrence A. Bonney\"]",
     plot := some "A young F.B.I. cadet must receive the help of an incarcerated and manipulative cannibal killer to help catch another serial killer, a madman who skins his victims." },
   { title := "Se7en",
     year := some 1995,
     genre := some "Thriller",
     rating := some 8.6,
     director := some "David Fincher",
     cast := some "[\"Morgan Freeman\", \"Brad Pitt\", \"Kevin Spacey\"]",
     plot := some "Two detectives, a rookie and a veteran, hunt a serial killer who uses the seven deadly sins as his motives." },
   { title := "Zodiac",
     year := some 2007,
     genre := some "Thriller",
     rating := some 7.7,
     director := some "David Fincher",
     cast := some "[\"Jake Gyllenhaal\", \"Robert Downey Jr.\", \"Mark Ruffalo\"]",
     plot := some "Between 1968 and 1983, a San Francisco cartoonist becomes an amateur detective obsessed with tracking down the Zodiac Killer, an unidentified individual who terrorizes Northern California with a killing spree." }
  ]

/-- A SQLAlchemy session over the movies table: the committed table
contents plus the objects added to the session but not yet committed. -/
structure SessionState where
  committed : List MovieRow
  pending : List MovieData
deriving DecidableEq, Repr

/-- `database_session.add(movie)`: the object joins the pending set of
the session. -/
def session_add (s : SessionState) (m : MovieData) : SessionState :=
  { s with pending := s.pending ++ [m] }

/-- SQLite assigns consecutive integer primary keys to freshly inserted
rows, starting here from `next_id`. -/
def assignIds (next_id : Int) : List MovieData → List MovieRow
  | [] => []
  | d :: ds =>
      { id := next_id, title := d.title, year := d.year, genre := d.genre,
        rating := d.rating, director := d.director, cast := d.cast,
        plot := d.plot } :: assignIds (next_id + 1) ds

/-- `database_session.commit()`: pending rows become table rows, with
ids continuing after the existing rows. -/
def session_commit (s : SessionState) : SessionState :=
  { committed := s.committed ++ assignIds ((s.committed.length : Int) + 1) s.pending,
    pending := [] }

/-- `database_session.rollback()`: pending objects are discarded and
the table is left as committed. -/
def session_rollback (s : SessionState) : SessionState :=
  { s with pending := [] }

/-- `seed_database`: count the existing rows and return unchanged if
any exist; otherwise add every sample movie and commit.  The `commit`
call may raise (parameter `commit_fails`); the `except` branch then
rolls the session back and re-raises, which the `Except.error` result
models. -/
def seed_database (commit_fails : Bool) (s : SessionState) :
    Except SessionState SessionState :=
  if 0 < s.committed.length then
    .ok s
  else
    let s1 := SAMPLE_MOVIES.foldl session_add s
    if commit_fails then
      .error (session_rollback s1)
    else
      .ok (session_commit s1)

/-- The table contents after seeding an empty store: the sample movies
with ids 1 to 24. -/
def sampleStore : Store :=
  assignIds 1 SAMPLE_MOVIES

/-! ## Concrete fixtures used to instantiate theorems with hypotheses -/

/-- Fixture row: an Action movie. -/
def wAction1 : MovieRow :=
  { id := 1, title := "The Dark Knight", year := some 2008,
    genre := some "Action", rating := some 9.0,
    director := some "Christopher Nolan", cast := none, plot := none }

/-- Fixture row: a second Action movie. -/
def wAction2 : MovieRow :=
  { id := 2, title := "John Wick", year := some 2014,
    genre := some "Action", rating := some 7.4,
    director := some "Chad Stahelski", cast := none, plot := none }

/-- Fixture row: a single-character title, used to exercise the LIKE
wildcards. -/
def wTitleA : MovieRow :=
  { id := 3, title := "a", year := none, genre := none, rating := none,
    director := none, cast := none, plot := none }

/-! ## General lemmas about the service -/

theorem mem_moviesWithGenre (store : Store) (g : String) (m : MovieRow) :
    m ∈ moviesWithGenre store g ↔ m ∈ store ∧ m.genre = some g := by
  simp [moviesWithGenre, List.mem_filter]

/-- Behaviour of `get_random_movies_by_genre` under the `random.sample`
contract, for any limit: the result is drawn from the matching rows,
has exactly `min n limit` elements, and is duplicate-free whenever the
store is. -/
theorem get_random_movies_by_genre_spec
    (sample : List MovieRow → Nat → List MovieRow) (hsample : SampleSpec sample)
    (store : Store) (g : String) (limit : Nat) :
    (∀ m ∈ get_random_movies_by_genre sample store g limit,
        m ∈ moviesWithGenre store g) ∧
    (get_random_movies_by_genre sample store g limit).length =
      min (moviesWithGenre store g).length limit ∧
    (store.Nodup → (get_random_movies_by_genre sample store g limit).Nodup) := by
  simp only [get_random_movies_by_genre]
  by_cases he : (moviesWithGenre store g).isEmpty = true
  · have h0 : moviesWithGenre store g = [] := by simpa using he
    simp [he, h0]
  · rw [if_neg he]
    by_cases hle : (moviesWithGenre store g).length ≤ limit
    · rw [if_pos hle]
      exact ⟨fun m hm => hm, (Nat.min_eq_left hle).symm,
        fun hnd => hnd.filter _⟩
    · rw [if_neg hle]
      have hlt : limit ≤ (moviesWithGenre store g).length :=
        Nat.le_of_lt (Nat.lt_of_not_le hle)
      obtain ⟨hlen, sub, hsub, hperm⟩ := hsample (moviesWithGenre store g) limit hlt
      refine ⟨fun m hm => hsub.subset (hperm.mem_iff.mp hm), ?_, fun hnd => ?_⟩
      · rw [hlen, Nat.min_eq_right hlt]
      · exact hperm.symm.nodup (hsub.nodup (hnd.filter _))

/-- `List.take` satisfies the contract of `random.sample`. -/
theorem takeSample_spec : SampleSpec takeSample := by
  intro l k hk
  refine ⟨?_, l.take k, List.take_sublist k l, List.Perm.refl _⟩
  simp [takeSample, Nat.min_eq_left hk]

/-! ## Claims -/

/-- C2: for all `start_year ≤ end_year`, `get_movies_by_year_range`
returns exactly the stored movies whose `year` is present and lies in
the inclusive range: sound and complete. -/
theorem year_range_spec (store : Store) (start_year end_year : Int)
    (h : start_year ≤ end_year) (m : MovieRow) :
    m ∈ get_movies_by_year_range store start_year end_year ↔
      m ∈ store ∧ ∃ y : Int, m.year = some y ∧ start_year ≤ y ∧ y ≤ end_year := by
  rw [get_movies_by_year_range, List.mem_filter]
  refine and_congr_right fun _ => ?_
  cases hy : m.year with
  | none => simp [hy]
  | some y => simp [hy]

/-- Witness for C2: the year filter evaluated on a concrete store. -/
theorem year_range_spec_witness :
    wAction1 ∈ get_movies_by_year_range [wAction1] 1990 2010 ↔
      wAction1 ∈ [wAction1] ∧
        ∃ y : Int, wAction1.year = some y ∧ 1990 ≤ y ∧ y ≤ 2010 :=
  year_range_spec [wAction1] 1990 2010 (by decide) wAction1

/-- C4: `get_movies_by_rating_threshold t` returns exactly the stored
movies with a present rating `≥ t`; under the data-model invariant that
present ratings are non-negative, threshold 0 returns exactly the
movies with a non-null rating. -/
theorem rating_threshold_spec (store : Store) (min_rating : Rat) (m : MovieRow) :
    (m ∈ get_movies_by_rating_threshold store min_rating ↔
      m ∈ store ∧ ∃ r : Rat, m.rating = some r ∧ min_rating ≤ r) ∧
    ((∀ m2 ∈ store, ∀ r : Rat, m2.rating = some r → 0 ≤ r) →
      (m ∈ get_movies_by_rating_threshold store 0 ↔
        m ∈ store ∧ m.rating ≠ none)) := by
  have hchar : ∀ t : Rat, m ∈ get_movies_by_rating_threshold store t ↔
      m ∈ store ∧ ∃ r : Rat, m.rating = some r ∧ t ≤ r := by
    intro t
    rw [get_movies_by_rating_threshold, List.mem_filter]
    refine and_congr_right fun _ => ?_
    cases hr : m.rating with
    | none => simp [hr]
    | some r => simp [hr]
  refine ⟨hchar min_rating, fun hinv => ?_⟩
  rw [hchar 0]
  refine and_congr_right fun hm => ?_
  constructor
  · rintro ⟨r, hr, _⟩
    simp [hr]
  · intro hne
    cases hr : m.rating with
    | none => exact absurd hr hne
    | some r => exact ⟨r, rfl, hinv m hm r hr⟩

/-- C5: `get_all_genres` returns each distinct non-null non-empty genre
exactly once, and on the seeded sample store it is exactly the six
sample genres. -/
theorem all_genres_spec (store : Store) :
    (get_all_genres store).Nodup ∧
    (∀ s : String, s ∈ get_all_genres store ↔
      some s ∈ store.map (fun m => m.genre) ∧ s ≠ "") ∧
    get_all_genres sampleStore =
      ["Action", "Comedy", "Drama", "Horror", "Sci-Fi", "Thriller"] := by
  refine ⟨?_, ?_, by decide⟩
  · refine List.Nodup.filterMap ?_ (List.nodup_dedup _)
    intro a a' b hb hb'
    rw [Option.mem_def] at hb hb'
    cases a with
    | none => simp at hb
    | some s =>
      cases a' with
      | none => simp at hb'
      | some s' =>
        by_cases hs : s = ""
        · simp [hs] at hb
        · by_cases hs' : s' = ""
          · simp [hs'] at hb'
          · simp [hs] at hb
            simp [hs'] at hb'
            rw [hb, hb']
  · intro s
    rw [get_all_genres, List.mem_filterMap]
    constructor
    · rintro ⟨a, ha, hfa⟩
      rw [List.mem_dedup] at ha
      cases a with
      | none => simp at hfa
      | some t =>
        by_cases ht : t = ""
        · simp [ht] at hfa
        · simp [ht] at hfa
          subst hfa
          exact ⟨ha, ht⟩
    · rintro ⟨hmem, hne⟩
      exact ⟨some s, List.mem_dedup.mpr hmem, by simp [hne]⟩

/-- C6: the `GET /movies/{id}` handler answers 404 exactly when no
stored row has the requested id, and otherwise 200 with a movie whose
id equals the request. -/
theorem movie_by_id_endpoint_spec (store : Store) (movie_id : Int) :
    ((∀ m ∈ store, m.id ≠ movie_id) →
      get_movie_by_id_endpoint store movie_id =
        .httpError 404 ("Movie with ID " ++ toString movie_id ++ " not found") ∧
      (get_movie_by_id_endpoint store movie_id).statusCode = 404) ∧
    ((∃ m ∈ store, m.id = movie_id) →
      ∃ m, get_movie_by_id_endpoint store movie_id = .ok m ∧ m.id = movie_id ∧
        (get_movie_by_id_endpoint store movie_id).statusCode = 200) := by
  unfold get_movie_by_id_endpoint
  cases hf : get_movie_by_id store movie_id with
  | none =>
    rw [get_movie_by_id, List.find?_eq_none] at hf
    refine ⟨fun _ => ⟨rfl, rfl⟩, ?_⟩
    rintro ⟨m, hm, hid⟩
    exact absurd (by simp [hid]) (hf m hm)
  | some m =>
    have hid : m.id = movie_id := by simpa using List.find?_some hf
    have hmem : m ∈ store := List.mem_of_find?_eq_some hf
    exact ⟨fun h => absurd hid (h m hmem), fun _ => ⟨m, rfl, hid, rfl⟩⟩

/-- C8: seeding a store that already holds at least one movie inserts
nothing: the session is returned unchanged, so the row count is
unchanged. -/
theorem seed_skips_populated (commit_fails : Bool) (s : SessionState)
    (h : s.committed ≠ []) :
    seed_database commit_fails s = .ok s := by
  have hp : 0 < s.committed.length := List.length_pos.mpr h
  unfold seed_database
  simp [hp]

/-- Witness for C8: re-seeding a store holding one movie. -/
theorem seed_skips_populated_witness :
    seed_database false { committed := [wAction1], pending := [] } =
      .ok { committed := [wAction1], pending := [] } :=
  seed_skips_populated false { committed := [wAction1], pending := [] } (by decide)

/-- Adding objects to a session leaves the committed table unchanged. -/
theorem foldl_session_add_committed (l : List MovieData) (s : SessionState) :
    (l.foldl session_add s).committed = s.committed := by
  induction l generalizing s with
  | nil => rfl
  | cons d ds ih =>
    rw [List.foldl_cons]
    exact ih (session_add s d)

/-- C10: if the seed step fails during insertion or commit, the session
is rolled back before the exception propagates: the committed table is
unchanged and no pending insert survives. -/
theorem seed_rollback_spec (commit_fails : Bool) (s s2 : SessionState)
    (h : seed_database commit_fails s = .error s2) :
    s2.committed = s.committed ∧ s2.pending = [] := by
  unfold seed_database at h
  by_cases hp : 0 < s.committed.length
  · rw [if_pos hp] at h
    cases h
  · rw [if_neg hp] at h
    cases commit_fails with
    | false => cases h
    | true =>
      injection h with h2
      subst h2
      have hc : ∀ x : SessionState, (session_rollback x).committed = x.committed :=
        fun x => rfl
      have hpend : ∀ x : SessionState, (session_rollback x).pending = [] :=
        fun x => rfl
      rw [hc, hpend]
      exact ⟨foldl_session_add_committed SAMPLE_MOVIES s, rfl⟩

/-- C1: under the `random.sample` contract, `get_random_movies_by_genre`
returns only movies of the requested genre, exactly
`min (count g) limit` of them, pairwise distinct. -/
theorem genre_sampling_spec
    (sample : List MovieRow → Nat → List MovieRow) (hsample : SampleSpec sample)
    (store : Store) (hnodup : store.Nodup) (g : String) (limit : Nat)
    (hlimit : 0 < limit) :
    (∀ m ∈ get_random_movies_by_genre sample store g limit, m.genre = some g) ∧
    (get_random_movies_by_genre sample store g limit).length =
      min (moviesWithGenre store g).length limit ∧
    (get_random_movies_by_genre sample store g limit).Nodup := by
  obtain ⟨hmem, hlen, hnd⟩ :=
    get_random_movies_by_genre_spec sample hsample store g limit
  refine ⟨fun m hm => ?_, hlen, hnd hnodup⟩
  exact ((mem_moviesWithGenre store g m).mp (hmem m hm)).2

/-- Witness for C1: sampling one Action movie from a two-movie store. -/
theorem genre_sampling_spec_witness :
    (∀ m ∈ get_random_movies_by_genre takeSample [wAction1, wAction2] "Action" 1,
      m.genre = some "Action") ∧
    (get_random_movies_by_genre takeSample [wAction1, wAction2] "Action" 1).length =
      min (moviesWithGenre [wAction1, wAction2] "Action").length 1 ∧
    (get_random_movies_by_genre takeSample [wAction1, wAction2] "Action" 1).Nodup :=
  genre_sampling_spec takeSample takeSample_spec [wAction1, wAction2]
    (by decide) "Action" 1 (by decide)

/-- C7: the `GET /movies/genre/{genre}` handler rejects limits outside
`[1, 20]` with 422, defaults a missing limit to 8, answers 404 when no
stored movie has the genre, and otherwise 200 with a non-empty list
whose body carries the movies and their count. -/
theorem genre_endpoint_spec
    (sample : List MovieRow → Nat → List MovieRow) (hsample : SampleSpec sample)
    (store : Store) (g : String) :
    (∀ l : Int, l < 1 ∨ 20 < l →
      (get_movies_by_genre_endpoint sample store g (some l)).statusCode = 422) ∧
    (get_movies_by_genre_endpoint sample store g none =
      get_movies_by_genre_endpoint sample store g (some 8)) ∧
    (∀ l : Int, 1 ≤ l → l ≤ 20 →
      ((∀ m ∈ store, m.genre ≠ some g) →
        (get_movies_by_genre_endpoint sample store g (some l)).statusCode = 404) ∧
      ((∃ m ∈ store, m.genre = some g) →
        ∃ movies : List MovieRow, movies ≠ [] ∧
          get_movies_by_genre_endpoint sample store g (some l) = .ok movies ∧
          renderListResponse (get_movies_by_genre_endpoint sample store g (some l)) =
            (200, encodeMovieListBody movies))) := by
  refine ⟨?_, rfl, ?_⟩
  · intro l hl
    have hcond : (decide (l < 1) || decide (20 < l)) = true := by
      rcases hl with h | h <;> simp [h]
    simp only [get_movies_by_genre_endpoint, Option.getD_some, hcond, if_true]
    rfl
  · intro l h1 h20
    have hcond : ¬ ((decide (l < 1) || decide (20 < l)) = true) := by
      simp only [Bool.or_eq_true, decide_eq_true_eq]
      omega
    obtain ⟨hmem, hlen, _⟩ :=
      get_random_movies_by_genre_spec sample hsample store g l.toNat
    constructor
    · intro hnone
      have hg : moviesWithGenre store g = [] := by
        rw [moviesWithGenre, List.filter_eq_nil_iff]
        intro m hm
        simp only [beq_iff_eq]
        exact hnone m hm
      have hres : get_random_movies_by_genre sample store g l.toNat = [] := by
        have := hlen
        rw [hg] at this
        simp only [List.length_nil, Nat.zero_min] at this
        exact List.length_eq_zero.mp this
      simp only [get_movies_by_genre_endpoint, Option.getD_some, hcond, if_false,
        if_neg hcond, hres, List.isEmpty_nil, if_true]
      rfl
    · rintro ⟨m, hm, hgm⟩
      have hpos : 0 < (moviesWithGenre store g).length :=
        List.length_pos_of_mem ((mem_moviesWithGenre store g m).mpr ⟨hm, hgm⟩)
      have hkpos : 0 < l.toNat := by omega
      have hrespos : 0 < (get_random_movies_by_genre sample store g l.toNat).length := by
        rw [hlen]
        exact Nat.lt_min.mpr ⟨hpos, hkpos⟩
      have hnn : get_random_movies_by_genre sample store g l.toNat ≠ [] := by
        intro hnil
        rw [hnil] at hrespos
        simp at hrespos
      have hne : (get_random_movies_by_genre sample store g l.toNat).isEmpty = false := by
        cases hi : (get_random_movies_by_genre sample store g l.toNat).isEmpty
        · rfl
        · exact absurd (List.isEmpty_iff.mp hi) hnn
      refine ⟨get_random_movies_by_genre sample store g l.toNat, hnn, ?_, ?_⟩
      · simp only [get_movies_by_genre_endpoint, Option.getD_some, if_neg hcond, hne,
          Bool.false_eq_true, if_false]
      · simp only [get_movies_by_genre_endpoint, Option.getD_some, if_neg hcond, hne,
          Bool.false_eq_true, if_false]
        rfl

/-- Witness for C7: the genre endpoint on a concrete two-movie store. -/
theorem genre_endpoint_spec_witness :
    (∀ l : Int, l < 1 ∨ 20 < l →
      (get_movies_by_genre_endpoint takeSample [wAction1, wAction2] "Action"
        (some l)).statusCode = 422) ∧
    (get_movies_by_genre_endpoint takeSample [wAction1, wAction2] "Action" none =
      get_movies_by_genre_endpoint takeSample [wAction1, wAction2] "Action" (some 8)) ∧
    (∀ l : Int, 1 ≤ l → l ≤ 20 →
      ((∀ m ∈ [wAction1, wAction2], m.genre ≠ some "Action") →
        (get_movies_by_genre_endpoint takeSample [wAction1, wAction2] "Action"
          (some l)).statusCode = 404) ∧
      ((∃ m ∈ [wAction1, wAction2], m.genre = some "Action") →
        ∃ movies : List MovieRow, movies ≠ [] ∧
          get_movies_by_genre_endpoint takeSample [wAction1, wAction2] "Action"
            (some l) = .ok movies ∧
          renderListResponse (get_movies_by_genre_endpoint takeSample
            [wAction1, wAction2] "Action" (some l)) =
            (200, encodeMovieListBody movies))) :=
  genre_endpoint_spec takeSample takeSample_spec [wAction1, wAction2] "Action"

/-! ## LIKE-pattern lemmas for title search -/

/-- A leading `%` matches any split point: the rest of the pattern must
match some suffix of the string. -/
theorem likeMatch_percent_cons (ps : List Char) (s : List Char) :
    likeMatch ('%' :: ps) s = true ↔ ∃ t, t <:+ s ∧ likeMatch ps t = true := by
  simp [likeMatch, List.any_eq_true, List.mem_tails]

/-- The pattern consisting of a single `%` matches every string. -/
theorem likeMatch_percent_single (s : List Char) : likeMatch ['%'] s = true :=
  (likeMatch_percent_cons [] s).mpr ⟨[], List.nil_suffix, rfl⟩

/-- A wildcard-free pattern prefix consumes exactly a string prefix
with the same ASCII lowercasing. -/
theorem likeMatch_plain_append (cs ps : List Char) (s : List Char) :
    (∀ c ∈ cs, ¬ c = '%' ∧ ¬ c = '_') →
    (likeMatch (cs ++ ps) s = true ↔
      ∃ s1 s2 : List Char, s = s1 ++ s2 ∧
        s1.map Char.toLower = cs.map Char.toLower ∧ likeMatch ps s2 = true) := by
  induction cs generalizing s with
  | nil =>
    intro _
    simp only [List.nil_append, List.map_nil]
    constructor
    · intro h
      exact ⟨[], s, rfl, rfl, h⟩
    · rintro ⟨s1, s2, rfl, hmap, h⟩
      have hnil : s1 = [] := by
        cases s1 with
        | nil => rfl
        | cons a as => simp at hmap
      subst hnil
      simpa using h
  | cons c cs ih =>
    intro hw
    obtain ⟨hc1, hc2⟩ := hw c (List.mem_cons_self c cs)
    have hw2 : ∀ x ∈ cs, ¬ x = '%' ∧ ¬ x = '_' :=
      fun x hx => hw x (List.mem_cons_of_mem c hx)
    rw [List.cons_append]
    cases s with
    | nil =>
      constructor
      · intro h
        simp [likeMatch, hc1] at h
      · rintro ⟨s1, s2, hs, hmap, h⟩
        rcases List.append_eq_nil.mp hs.symm with ⟨rfl, rfl⟩
        simp at hmap
    | cons a s2 =>
      constructor
      · intro h
        have h2 : ((Char.toLower c == Char.toLower a) &&
            likeMatch (cs ++ ps) s2) = true := by
          simpa [likeMatch, hc1, hc2] using h
        rw [Bool.and_eq_true, beq_iff_eq] at h2
        obtain ⟨hca, hrest⟩ := h2
        obtain ⟨t1, t2, rfl, hmap, hps⟩ := (ih s2 hw2).mp hrest
        refine ⟨a :: t1, t2, rfl, ?_, hps⟩
        rw [List.map_cons, List.map_cons, hmap, hca]
      · rintro ⟨s1, s2x, hs, hmap, hps⟩
        cases s1 with
        | nil => simp at hmap
        | cons b s1x =>
          rw [List.cons_append] at hs
          injection hs with hab hs2
          rw [List.map_cons, List.map_cons] at hmap
          injection hmap with hml hmt
          have hrest : likeMatch (cs ++ ps) s2 = true := by
            rw [hs2]
            exact (ih (s1x ++ s2x) hw2).mpr ⟨s1x, s2x, rfl, hmt, hps⟩
          have hba : Char.toLower c = Char.toLower a := by
            rw [hab]
            exact hml.symm
          simp [likeMatch, hc1, hc2, hba, hrest]

/-- For a wildcard-free search term `cs`, the pattern `%cs%` matches a
string exactly when `cs` occurs in it case-insensitively. -/
theorem likeMatch_infix_iff (cs : List Char)
    (hw : ∀ c ∈ cs, ¬ c = '%' ∧ ¬ c = '_') (s : List Char) :
    likeMatch ('%' :: cs ++ ['%']) s = true ↔
      cs.map Char.toLower <:+: s.map Char.toLower := by
  rw [List.cons_append, likeMatch_percent_cons]
  constructor
  · rintro ⟨t, ⟨pre, rfl⟩, ht⟩
    rw [likeMatch_plain_append cs ['%'] t hw] at ht
    obtain ⟨t1, t2, rfl, hmap, _⟩ := ht
    refine ⟨pre.map Char.toLower, t2.map Char.toLower, ?_⟩
    rw [List.map_append, List.map_append, hmap, List.append_assoc]
  · rintro ⟨u, v, huv⟩
    have hlen : u.length + (cs.length + v.length) = s.length := by
      have h1 := congrArg List.length huv
      simpa [List.length_append, List.length_map] using h1
    have hus : u.length ≤ s.length := by omega
    have hsplit1 : s.take u.length ++ s.drop u.length = s :=
      List.take_append_drop u.length s
    have hmap1 : (s.take u.length).map Char.toLower ++
        (s.drop u.length).map Char.toLower = u ++ (cs.map Char.toLower ++ v) := by
      rw [← List.map_append, hsplit1, ← huv, List.append_assoc]
    have hlen1 : ((s.take u.length).map Char.toLower).length = u.length := by
      simp [List.length_map, List.length_take]
      omega
    obtain ⟨hmu, hrest⟩ := List.append_inj hmap1 hlen1
    set r := s.drop u.length with hr
    have hcr : cs.length ≤ r.length := by
      have : r.length = s.length - u.length := by simp [hr]
      omega
    have hsplit2 : r.take cs.length ++ r.drop cs.length = r :=
      List.take_append_drop cs.length r
    have hmap2 : (r.take cs.length).map Char.toLower ++
        (r.drop cs.length).map Char.toLower = cs.map Char.toLower ++ v := by
      rw [← List.map_append, hsplit2]
      exact hrest
    have hlen2 : ((r.take cs.length).map Char.toLower).length =
        (cs.map Char.toLower).length := by
      simp [List.length_map, List.length_take]
      omega
    obtain ⟨hmb, hmv⟩ := List.append_inj hmap2 hlen2
    refine ⟨r, ⟨s.take u.length, hsplit1⟩, ?_⟩
    rw [likeMatch_plain_append cs ['%'] r hw]
    exact ⟨r.take cs.length, r.drop cs.length, hsplit2.symm, hmb,
      likeMatch_percent_single _⟩

/-- C3 counterexample: the search term `%` (non-empty) is a LIKE
wildcard, so it matches a title that does not contain a percent sign:
the claimed substring characterisation fails. -/
theorem search_title_counterexample :
    search_movies_by_title [wTitleA] "%" = [wTitleA] ∧
    ("%" : String) ≠ "" ∧ ¬ containsCI wTitleA.title "%" := by
  refine ⟨by decide, by decide, by decide⟩

/-- C3 (amended): for non-empty search terms containing neither LIKE
wildcard `%` nor `_`, the search returns exactly the stored movies
whose title contains the term ASCII-case-insensitively. -/
theorem search_title_spec (store : Store) (term : String) (hne : term ≠ "")
    (hw : ∀ c ∈ term.toList, ¬ c = '%' ∧ ¬ c = '_') (m : MovieRow) :
    m ∈ search_movies_by_title store term ↔
      m ∈ store ∧ containsCI m.title term := by
  rw [search_movies_by_title, List.mem_filter]
  refine and_congr_right fun _ => ?_
  unfold containsCI
  exact likeMatch_infix_iff term.toList hw m.title.toList

/-- Witness for C3: searching a concrete store for `dark`. -/
theorem search_title_spec_witness :
    wAction1 ∈ search_movies_by_title [wAction1] "dark" ↔
      wAction1 ∈ [wAction1] ∧ containsCI wAction1.title "dark" :=
  search_title_spec [wAction1] "dark" (by decide) (by decide) wAction1

/-! ## C9: status codes inside response bodies -/

/-- C9 counterexample: the 200 response of `GET /movies/` on an empty
store has body `{"movies": [], "total": 0}`, which does not contain the
number 200 anywhere: success responses do not carry the status code in
the body. -/
theorem status_in_body_counterexample :
    (renderListResponse (get_all_movies_endpoint [])).1 = 200 ∧
    Json.hasNumber 200 (renderListResponse (get_all_movies_endpoint [])).2 = false := by
  refine ⟨rfl, by decide⟩

/-- C9 (amended): responses produced from raised `HTTPException`s go
through the custom exception handler, whose body carries the status
code numerically; in particular every non-200 response of the by-id and
year-range endpoints carries its status code in the body. -/
theorem error_responses_carry_status :
    (∀ (status : Nat) (detail : String),
      Json.hasNumber (status : Rat) (errorBody status detail) = true) ∧
    (∀ (store : Store) (movie_id : Int),
      (renderMovieResponse (get_movie_by_id_endpoint store movie_id)).1 = 200 ∨
      Json.hasNumber
        (((renderMovieResponse (get_movie_by_id_endpoint store movie_id)).1 : Nat) : Rat)
        (renderMovieResponse (get_movie_by_id_endpoint store movie_id)).2 = true) ∧
    (∀ (store : Store) (start_year end_year : Int),
      (renderListResponse
        (get_movies_by_year_range_endpoint store start_year end_year)).1 = 200 ∨
      Json.hasNumber
        (((renderListResponse
          (get_movies_by_year_range_endpoint store start_year end_year)).1 : Nat) : Rat)
        (renderListResponse
          (get_movies_by_year_range_endpoint store start_year end_year)).2 = true) := by
  have hbody : ∀ (status : Nat) (detail : String),
      Json.hasNumber (status : Rat) (errorBody status detail) = true := by
    intro status detail
    simp [errorBody, Json.hasNumber, JsonFields.hasNumber]
  refine ⟨hbody, ?_, ?_⟩
  · intro store movie_id
    unfold renderMovieResponse renderResponse get_movie_by_id_endpoint
    cases get_movie_by_id store movie_id with
    | none =>
      right
      exact hbody 404 _
    | some m =>
      left
      rfl
  · intro store start_year end_year
    unfold renderListResponse renderResponse get_movies_by_year_range_endpoint
    by_cases hgt : start_year > end_year
    · rw [if_pos hgt]
      right
      exact hbody 422 _
    · rw [if_neg hgt]
      left
      rfl

/-- Witness for C10: a failing commit on an empty store rolls back to
an empty session. -/
theorem seed_rollback_spec_witness :
    SessionState.committed { committed := [], pending := [] } =
      SessionState.committed { committed := [], pending := [] } ∧
    SessionState.pending { committed := [], pending := [] } = [] :=
  seed_rollback_spec true { committed := [], pending := [] }
    { committed := [], pending := [] } (by rfl)

end MovieRec

